import Mathlib

/-!
# Verification of the purchase finalization / payment workflow

Shallow embedding of the payment and worker-intake logic of the Telegram
storefront bot (`payment.py`, `worker.py`).  Monetary EUR amounts are
modelled in integer cents (`Int`); crypto amounts are modelled as exact
rationals (`ℚ`); reseller discount percentages are modelled in basis
points (hundredths of a percent, `Nat`), which represents every
two-decimal `Decimal` percentage exactly.  External collaborators (the
NOWPayments HTTP gateway, the reseller-discount lookup, the message
sink) are passed in as explicit oracle parameters, mirroring the fact
that the Python code awaits them as opaque calls.
-/

namespace GoblinShop

/-- A row of the `products` table.  Only the columns that the verified
operations read or write are carried: `id`, `available` and `reserved`
(the remaining columns — city, district, type, size, name, price,
original pickup text, added_by, added_date — are never consulted by the
finalization, release, or crediting code paths, which work from the
basket snapshot instead). `available` is an `Int` so that the
"never below zero" safety property is a real statement rather than a
modelling artifact. -/
structure Product where
  id : Nat
  available : Int
  reserved : Int
deriving DecidableEq, Repr

/-- One item of a basket snapshot, as captured at payment-intent time
(`basket_pay_snapshot` / the pending deposit's `basket_snapshot`).
`price` is the original snapshot price in cents (the snapshot's
`price` field). -/
structure SnapItem where
  productId : Nat
  price : Int
  productType : String
  name : String
  size : String
  city : String
  district : String
  originalText : String
deriving DecidableEq, Repr

/-- A row of the `purchases` table, as inserted by `_finalize_purchase`
(`purchase_date` is a wall-clock timestamp and is omitted). -/
structure PurchaseRow where
  userId : Nat
  productId : Nat
  productName : String
  productType : String
  productSize : String
  pricePaid : Int
  city : String
  district : String
deriving DecidableEq, Repr

/-- A row of the `users` table (columns touched by the verified code:
`balance` in cents, `total_purchases`, the serialized live `basket`). -/
structure UserRow where
  userId : Nat
  balance : Int
  totalPurchases : Nat
  basket : String
deriving DecidableEq, Repr

/-- The database state consulted by the payment workflow:
`products`, `purchases`, `users` and `discount_codes (code, uses_count)`. -/
structure DB where
  products : List Product
  purchases : List PurchaseRow
  users : List UserRow
  discountCodes : List (String × Nat)
deriving DecidableEq, Repr

/-- The WHERE clause of
`UPDATE products SET available = available - 1 WHERE id = ? AND available > 0`. -/
def hitBy (pid : Nat) (p : Product) : Bool :=
  p.id == pid && decide (0 < p.available)

/-- The per-product effect of one snapshot item inside the finalization
transaction: the row is decremented exactly when the UPDATE's WHERE
clause matches it. -/
def step_one (p : Product) (item : SnapItem) : Product :=
  if hitBy item.productId p then { p with available := p.available - 1 } else p

/-- The purchase row accumulated for one surviving snapshot item:
`price_paid` is the snapshot's original price minus the reseller
discount amount
`(price * pct / 100).quantize(0.01, ROUND_DOWN)`; in cents with the
percentage in basis points this is `price * bp / 10000`, truncated
(`Int` division truncates toward zero, as `ROUND_DOWN` does). -/
def mk_purchase_row (userId : Nat) (bp : String → Nat) (item : SnapItem) : PurchaseRow :=
  { userId := userId
    productId := item.productId
    productName := item.name
    productType := item.productType
    productSize := item.size
    pricePaid := item.price - item.price * (bp item.productType : Int) / 10000
    city := item.city
    district := item.district }

/-- Accumulator of the `BEGIN EXCLUSIVE` transaction body of
`_finalize_purchase`: the evolving `products` table and the
`purchases_to_insert` list. -/
structure TxAcc where
  products : List Product
  rows : List PurchaseRow
deriving DecidableEq, Repr

/-- One iteration of the snapshot loop in `_finalize_purchase`: run the
guarded decrement; if its rowcount is zero the item is skipped
(`continue`), otherwise the purchase row is accumulated. -/
def finalize_step (userId : Nat) (bp : String → Nat) (acc : TxAcc) (item : SnapItem) : TxAcc :=
  if acc.products.countP (hitBy item.productId) = 0 then acc
  else
    { products := acc.products.map (fun p => step_one p item)
      rows := acc.rows ++ [mk_purchase_row userId bp item] }

/-- The `BEGIN EXCLUSIVE … COMMIT` transaction of `_finalize_purchase`:
loop over the snapshot, and if no purchase row was accumulated roll
back (`none`, the database is unchanged); otherwise commit the
decrements, insert the purchase rows, bump the user's
`total_purchases`, clear the live basket, and bump the discount code's
`uses_count` when one was used.  The committed rows are returned
alongside the new state. -/
def finalize_transaction (userId : Nat) (snapshot : List SnapItem)
    (discountCode : Option String) (bp : String → Nat) (db : DB) :
    Option (DB × List PurchaseRow) :=
  let acc := snapshot.foldl (finalize_step userId bp) ⟨db.products, []⟩
  if acc.rows.isEmpty then none
  else
    some ({ products := acc.products
            purchases := db.purchases ++ acc.rows
            users := db.users.map (fun u =>
              if u.userId == userId then
                { u with totalPurchases := u.totalPurchases + acc.rows.length, basket := "" }
              else u)
            discountCodes :=
              match discountCode with
              | some code => db.discountCodes.map (fun dc =>
                  if dc.1 == code then (dc.1, dc.2 + 1) else dc)
              | none => db.discountCodes },
          acc.rows)

/-- Outcome of the best-effort post-commit phase of
`_finalize_purchase`: media fetch, media/message delivery, and the
deletion of the consumed product rows.  Each may fail independently;
the Python code wraps each in its own `try/except`. -/
structure PostOutcome where
  mediaFetchOk : Bool
  deliveryOk : Bool
  deleteOk : Bool
deriving DecidableEq, Repr

/-- `DELETE FROM products WHERE id = ?` executed for every processed
product id in the post-commit cleanup. -/
def delete_products (pids : List Nat) (db : DB) : DB :=
  { db with products := db.products.filter (fun p => !(pids.contains p.id)) }

/-- `_finalize_purchase`: an empty snapshot fails immediately; then the
exclusive transaction runs; on rollback the caller sees failure and the
database is untouched.  On commit the post-commit phase runs: media
fetch and delivery touch no ledger state, and the product-row deletion
is applied only when it succeeds; the function returns success
regardless of post-commit failures. -/
def finalize_purchase (userId : Nat) (snapshot : List SnapItem)
    (discountCode : Option String) (bp : String → Nat) (post : PostOutcome)
    (db : DB) : DB × Bool :=
  if snapshot.isEmpty then (db, false)
  else
    match finalize_transaction userId snapshot discountCode bp db with
    | none => (db, false)
    | some (db1, rows) =>
        (if post.deleteOk then delete_products (rows.map (fun r => r.productId)) db1 else db1,
         true)

/-- Modelled from the spec: `_unreserve_basket_items` lives in
`user.py`/`utils.py`, which are not part of this repository snapshot
(`payment.py` only imports it).  Spec 4.3: "release reserved items back
to available stock using the basket snapshot; this must be idempotent
(releasing an already-released or already-sold item is a no-op, not an
error)".  For each snapshot item, a product row with the item's id that
still has a positive `reserved` count gets `reserved` decremented and
`available` incremented; otherwise the item is a no-op. -/
def unreserve_basket_items (snapshot : List SnapItem) (db : DB) : DB :=
  { db with
    products := snapshot.foldl (fun ps item =>
      ps.map (fun p =>
        if p.id == item.productId && decide (0 < p.reserved) then
          { p with reserved := p.reserved - 1, available := p.available + 1 }
        else p)) db.products }

/-- `UPDATE users SET balance = balance + ? WHERE user_id = ?`
(one separate transaction). -/
def update_balance (userId : Nat) (delta : Int) (db : DB) : DB :=
  { db with users := db.users.map (fun u =>
      if u.userId == userId then { u with balance := u.balance + delta } else u) }

/-- The balance column of a user's row, if present. -/
def user_balance (userId : Nat) (db : DB) : Option Int :=
  (db.users.find? (fun u => u.userId == userId)).map (fun u => u.balance)

/-- `process_purchase_with_balance`: returns
`(database, success, adminAlertSent)`.  An empty snapshot or a negative
amount fails immediately.  The balance check runs in its own exclusive
transaction; a missing row or insufficient balance rolls back, releases
the reservation, and fails.  Otherwise the deduction commits *before*
the shared finalization runs.  If finalization fails, a refund of the
deducted amount is attempted in a separate transaction (`refundOk`
models whether that UPDATE/COMMIT succeeds); an admin alert is sent
exactly when the refund raised and `ADMIN_ID` is configured
(`adminConfigured`; the chat id always falls back to the user id in the
source, so it is always known). -/
def process_purchase_with_balance (userId : Nat) (amount : Int) (snapshot : List SnapItem)
    (discountCode : Option String) (bp : String → Nat) (post : PostOutcome)
    (refundOk adminConfigured : Bool) (db : DB) : DB × Bool × Bool :=
  if snapshot.isEmpty then (db, false, false)
  else if amount < 0 then (db, false, false)
  else
    match db.users.find? (fun u => u.userId == userId) with
    | none => (unreserve_basket_items snapshot db, false, false)
    | some u =>
      if u.balance < amount then (unreserve_basket_items snapshot db, false, false)
      else
        let deducted := update_balance userId (-amount) db
        match finalize_purchase userId snapshot discountCode bp post deducted with
        | (db2, true) => (db2, true, false)
        | (db2, false) =>
            if refundOk then (update_balance userId amount db2, false, false)
            else (db2, false, adminConfigured)

/-- The admin alert text sent by `process_successful_crypto_purchase`
when the pending record held no basket snapshot. -/
def missing_basket_alert (paymentId : String) (userId : Nat) : String :=
  "⚠️ Critical Issue: Crypto payment " ++ paymentId ++ " success for user " ++
    toString userId ++ ", but basket data missing! Manual check needed."

/-- The admin alert text sent by `process_successful_crypto_purchase`
when `_finalize_purchase` failed after a confirmed crypto payment. -/
def finalize_fail_alert (paymentId : String) (userId : Nat) : String :=
  "⚠️ Critical Issue: Crypto payment " ++ paymentId ++ " success for user " ++
    toString userId ++ ", but finalization FAILED! Check logs! MANUAL INTERVENTION REQUIRED."

/-- `process_successful_crypto_purchase`: returns
`(database, success, adminAlert)`.  A missing/empty basket snapshot
cannot be finalized: the admin is alerted and the call fails with the
database untouched.  Otherwise the shared finalization runs; if it
fails, the admin is alerted.  No balance credit (refund) is performed on
either failure path.  Alerts are sent only when `ADMIN_ID` is
configured. -/
def process_successful_crypto_purchase (userId : Nat) (paymentId : String)
    (snapshot : List SnapItem) (discountCode : Option String) (bp : String → Nat)
    (post : PostOutcome) (adminConfigured : Bool) (db : DB) :
    DB × Bool × Option String :=
  if snapshot.isEmpty then
    (db, false, if adminConfigured then some (missing_basket_alert paymentId userId) else none)
  else
    match finalize_purchase userId snapshot discountCode bp post db with
    | (db1, true) => (db1, true, none)
    | (db1, false) =>
        (db1, false,
         if adminConfigured then some (finalize_fail_alert paymentId userId) else none)

/-- The balance update applied by `credit_user_balance` when the user
row exists. -/
def credit_apply (userId : Nat) (amount : Int) (db : DB) : DB :=
  update_balance userId amount db

/-- `credit_user_balance`: a non-positive amount is rejected before any
database write.  Otherwise one transaction runs
`UPDATE users SET balance = balance + ? WHERE user_id = ?`; a zero
rowcount (no such user) rolls the transaction back and fails, leaving
the database unchanged; otherwise the credit commits and the call
succeeds (the audit log entry and the user notification that follow do
not touch the ledger). -/
def credit_user_balance (userId : Nat) (amount : Int) (db : DB) : DB × Bool :=
  if amount ≤ 0 then (db, false)
  else if db.users.any (fun u => u.userId == userId) then
    (credit_apply userId amount db, true)
  else (db, false)

/-! ## NOWPayments invoice creation (`create_nowpayments_payment`) -/

/-- Result of `_get_nowpayments_estimate` as consumed by
`create_nowpayments_payment`: either an estimated crypto amount or one
of the estimate error codes (`estimate_api_timeout`,
`estimate_currency_not_found`, `estimate_api_request_failed`,
`estimate_api_unexpected_error`, `invalid_estimate_response`,
`internal_estimate_error`). -/
inductive EstimateResult where
  | ok (amount : ℚ)
  | errCode (code : String)
deriving DecidableEq, Repr

/-- The fields of a NOWPayments `POST /v1/payment` response that
`create_nowpayments_payment` validates and forwards (`has*` records the
presence of the required keys checked at step 5). -/
structure InvoiceResp where
  hasPaymentId : Bool
  hasPayAddress : Bool
  hasPayAmount : Bool
  hasPayCurrency : Bool
  hasExpiration : Bool
  paymentId : String
  payAmount : ℚ
deriving DecidableEq, Repr

/-- Result of the `make_payment_request` thread: a parsed gateway
response or an error code (`api_timeout`, `api_key_invalid`,
`amount_too_low_api`, `api_request_failed`, `api_unexpected_error`). -/
inductive ApiCallResult where
  | ok (resp : InvoiceResp)
  | errCode (code : String)
deriving DecidableEq, Repr

/-- Result of `create_nowpayments_payment`: an error code, or a created
invoice carrying the `price_amount` placed on the gateway request and
the gateway's response. -/
inductive PayResult where
  | err (code : String)
  | ok (priceAmount : ℚ) (resp : InvoiceResp)
deriving DecidableEq, Repr

/-- The required-keys check of step 5 of `create_nowpayments_payment`
(`payment_id`, `pay_address`, `pay_amount`, `pay_currency`,
`expiration_estimate_date`). -/
def resp_valid (r : InvoiceResp) : Bool :=
  r.hasPaymentId && r.hasPayAddress && r.hasPayAmount && r.hasPayCurrency && r.hasExpiration

/-- `create_nowpayments_payment`.  Steps, in source order: missing API
key; estimate (a `estimate_currency_not_found` estimate error is kept,
any other estimate error collapses to `estimate_failed`); minimum
payable amount lookup (`min_amount_fetch_error` when it fails); for a
purchase, an estimate below the minimum is `basket_pay_too_low`; the
invoice is then requested for `max(estimate, minimum)` (`apiCall` is
the gateway oracle: it maps the requested `price_amount` to the
gateway's answer); a response missing required keys is
`invalid_api_response`; a failure of `add_pending_deposit` (`storeOk`)
is `pending_db_error`; otherwise the invoice is returned. -/
def create_nowpayments_payment (apiKeyConfigured : Bool) (estimate : EstimateResult)
    (minAmount : Option ℚ) (isPurchase : Bool) (apiCall : ℚ → ApiCallResult)
    (storeOk : Bool) : PayResult :=
  if !apiKeyConfigured then PayResult.err "payment_api_misconfigured"
  else
    match estimate with
    | EstimateResult.errCode c =>
        if c == "estimate_currency_not_found" then PayResult.err "estimate_currency_not_found"
        else PayResult.err "estimate_failed"
    | EstimateResult.ok est =>
      match minAmount with
      | none => PayResult.err "min_amount_fetch_error"
      | some minA =>
        if isPurchase && decide (est < minA) then PayResult.err "basket_pay_too_low"
        else
          match apiCall (max est minA) with
          | ApiCallResult.errCode c => PayResult.err c
          | ApiCallResult.ok resp =>
            if !resp_valid resp then PayResult.err "invalid_api_response"
            else if !storeOk then PayResult.err "pending_db_error"
            else PayResult.ok (max est minA) resp

/-- The error codes for which `handle_select_basket_crypto` releases the
reserved items ("Un-reserve items if invoice creation failed early"). -/
def basket_unreserve_error_codes : List String :=
  ["basket_pay_too_low", "amount_too_low_api", "min_amount_fetch_error",
   "estimate_failed", "estimate_currency_not_found", "payment_api_misconfigured"]

/-- The inventory effect of `handle_select_basket_crypto` after
`create_nowpayments_payment` returns: on success the invoice is
displayed and the inventory is untouched; on an error,
`_unreserve_basket_items` is invoked on the saved snapshot exactly when
the error code is in `basket_unreserve_error_codes`, and for any other
error code the inventory is left as it was (only a message is shown). -/
def handle_select_basket_crypto_failure (snapshot : List SnapItem) (res : PayResult)
    (db : DB) : DB :=
  match res with
  | PayResult.ok _ _ => db
  | PayResult.err code =>
      if basket_unreserve_error_codes.contains code then unreserve_basket_items snapshot db
      else db

/-! ## Worker bulk intake (`handle_worker_bulk_messages`) -/

/-- One pending bulk drop as stored in
`context.user_data['worker_bulk_drops']` (the optional media
attachments are carried through unchanged and are omitted here). -/
structure Drop where
  size : String
  price : ℚ
  description : String
  originalText : String
deriving DecidableEq, Repr

/-- `handle_worker_bulk_messages` for one worker message: the
size/price regex cascade is the `parse` oracle, returning
`(size, price, description)` when one of the three patterns matched and
`float` parsed the price.  A failed parse or an empty size leaves the
pending list unchanged ("Could not parse size and price"); a price
outside `(0, 10000]` leaves it unchanged ("Price must be between 0 and
10,000 EUR"); otherwise the drop is appended. -/
def handle_worker_bulk_messages (parse : String → Option (String × ℚ × String))
    (text : String) (drops : List Drop) : List Drop :=
  match parse text with
  | none => drops
  | some (size, price, description) =>
    if size.isEmpty then drops
    else if price ≤ 0 ∨ 10000 < price then drops
    else drops ++ [{ size := size, price := price, description := description,
                     originalText := text }]

/-! ## String containment (used to state what an alert message carries) -/

/-- `startsWithList needle l`: `needle` is an initial segment of `l`. -/
def startsWithList : List Char → List Char → Bool
  | [], _ => true
  | _ :: _, [] => false
  | a :: as, b :: bs => a == b && startsWithList as bs

/-- `hasSegment needle l`: `needle` occurs contiguously inside `l`. -/
def hasSegment (needle : List Char) : List Char → Bool
  | [] => startsWithList needle []
  | b :: bs => startsWithList needle (b :: bs) || hasSegment needle bs

/-- `strContains hay needle`: `needle` occurs as a substring of `hay`. -/
def strContains (hay needle : String) : Bool :=
  hasSegment needle.data hay.data

/-! ## Concrete fixtures for witnesses and counterexamples -/

/-- A snapshot item: product 1, 10.00 EUR, type "weed". -/
def sampleItem : SnapItem :=
  { productId := 1, price := 1000, productType := "weed", name := "ItemOne",
    size := "1g", city := "Vilnius", district := "Center", originalText := "pickup at the park" }

/-- A second snapshot item with different content (product 2). -/
def sampleItemB : SnapItem :=
  { productId := 2, price := 2000, productType := "hash", name := "OtherThing",
    size := "2g", city := "Kaunas", district := "Old Town", originalText := "different stash" }

/-- A 10% reseller discount for every product type (1000 basis points). -/
def sampleBp : String → Nat := fun _ => 1000

/-- Post-commit phase where everything succeeds. -/
def samplePostOk : PostOutcome := { mediaFetchOk := true, deliveryOk := true, deleteOk := true }

/-- Post-commit phase where every best-effort step fails. -/
def samplePostFail : PostOutcome := { mediaFetchOk := false, deliveryOk := false, deleteOk := false }

/-- Database with product 1 in stock (available 1) and user 7 holding 20.00 EUR. -/
def sampleDb : DB :=
  { products := [{ id := 1, available := 1, reserved := 0 }]
    purchases := []
    users := [{ userId := 7, balance := 2000, totalPurchases := 0, basket := "1x1" }]
    discountCodes := [("SAVE10", 3)] }

/-- Database where product 1 is reserved but has no available stock
(the state after a reservation), so finalization finds nothing to
decrement. -/
def sampleDbNoStock : DB :=
  { products := [{ id := 1, available := 0, reserved := 1 }]
    purchases := []
    users := [{ userId := 7, balance := 2000, totalPurchases := 0, basket := "1x1" }]
    discountCodes := [] }

/-- The purchase row committed when user 7 finalizes `[sampleItem]`
under a 10% reseller discount. -/
def sampleRow : PurchaseRow :=
  { userId := 7, productId := 1, productName := "ItemOne", productType := "weed",
    productSize := "1g", pricePaid := 900, city := "Vilnius", district := "Center" }

/-- The committed database after user 7 finalizes `[sampleItem]` on
`sampleDb` with discount code "SAVE10". -/
def sampleDbCommitted : DB :=
  { products := [{ id := 1, available := 0, reserved := 0 }]
    purchases := [sampleRow]
    users := [{ userId := 7, balance := 2000, totalPurchases := 1, basket := "" }]
    discountCodes := [("SAVE10", 4)] }

/-- A parsed bulk drop: "1g" at 25.50 EUR. -/
def sampleDrop : Drop :=
  { size := "1g", price := (51 : ℚ) / 2, description := "good stuff",
    originalText := "1g - 25.50 good stuff" }

/-- A gateway payment response carrying every required key. -/
def sampleResp : InvoiceResp :=
  { hasPaymentId := true, hasPayAddress := true, hasPayAmount := true,
    hasPayCurrency := true, hasExpiration := true,
    paymentId := "NP123", payAmount := 5 }

/-! ## Helper lemmas about the finalization fold -/

lemma foldl_fixed {α β : Type*} (f : α → β → α) (a : α) :
    ∀ l : List β, (∀ x ∈ l, f a x = a) → l.foldl f a = a := by
  intro l
  induction l with
  | nil => intro _; rfl
  | cons x xs ih =>
    intro h
    rw [List.foldl_cons, h x (List.mem_cons_self x xs)]
    exact ih (fun y hy => h y (List.mem_cons_of_mem x hy))

lemma step_one_eq_of_not_hit (p : Product) (item : SnapItem)
    (h : hitBy item.productId p = false) : step_one p item = p := by
  simp [step_one, h]

lemma step_one_id (p : Product) (item : SnapItem) : (step_one p item).id = p.id := by
  simp only [step_one]
  split <;> rfl

lemma foldl_step_one_id (l : List SnapItem) (p : Product) :
    (l.foldl step_one p).id = p.id := by
  induction l generalizing p with
  | nil => rfl
  | cons x xs ih => rw [List.foldl_cons, ih, step_one_id]

lemma step_one_nonneg (p : Product) (item : SnapItem) (h : 0 ≤ p.available) :
    0 ≤ (step_one p item).available := by
  simp only [step_one]
  split
  · rename_i hhit
    simp only [hitBy, Bool.and_eq_true, decide_eq_true_eq] at hhit
    have := hhit.2
    simp only []
    omega
  · exact h

lemma foldl_step_one_nonneg (l : List SnapItem) (p : Product) (h : 0 ≤ p.available) :
    0 ≤ (l.foldl step_one p).available := by
  induction l generalizing p with
  | nil => exact h
  | cons x xs ih => rw [List.foldl_cons]; exact ih _ (step_one_nonneg p x h)

lemma foldl_step_one_of_nonpos (l : List SnapItem) (p : Product) (h : p.available ≤ 0) :
    l.foldl step_one p = p := by
  induction l generalizing p with
  | nil => rfl
  | cons x xs ih =>
    have hd : decide (0 < p.available) = false := by
      rw [decide_eq_false_iff_not]
      omega
    have hs : step_one p x = p := step_one_eq_of_not_hit p x (by simp [hitBy, hd])
    rw [List.foldl_cons, hs, ih p h]

lemma foldl_step_one_single (l : List SnapItem) (p : Product) (h1 : p.available = 1)
    (h2 : ∃ item ∈ l, item.productId = p.id) :
    (l.foldl step_one p).available = 0 := by
  induction l generalizing p with
  | nil => simp at h2
  | cons x xs ih =>
    rw [List.foldl_cons]
    by_cases hx : p.id = x.productId
    · have hhit : hitBy x.productId p = true := by
        simp [hitBy, hx, h1]
      have hav : (step_one p x).available = 0 := by
        simp only [step_one, hhit, if_true]
        omega
      rw [foldl_step_one_of_nonpos xs _ (by rw [hav])]
      exact hav
    · have hb : (p.id == x.productId) = false := by
        simp [hx]
      have hhit : hitBy x.productId p = false := by
        simp [hitBy, hb]
      rw [step_one_eq_of_not_hit p x hhit]
      apply ih p h1
      rcases h2 with ⟨item, hmem, hid⟩
      rcases List.mem_cons.mp hmem with rfl | hmem'
      · exact absurd hid.symm hx
      · exact ⟨item, hmem', hid⟩

lemma products_foldl_map (userId : Nat) (bp : String → Nat) :
    ∀ (l : List SnapItem) (ps : List Product) (rs : List PurchaseRow),
      (l.foldl (finalize_step userId bp) ⟨ps, rs⟩).products
        = ps.map (fun p => l.foldl step_one p) := by
  intro l
  induction l with
  | nil => intro ps rs; simp
  | cons x xs ih =>
    intro ps rs
    rw [List.foldl_cons]
    by_cases hc : ps.countP (hitBy x.productId) = 0
    · have hstep : finalize_step userId bp ⟨ps, rs⟩ x = ⟨ps, rs⟩ := by
        simp [finalize_step, hc]
      rw [hstep, ih ps rs]
      apply List.map_congr_left
      intro p hp
      have hnot : hitBy x.productId p = false := by
        have := List.countP_eq_zero.mp hc p hp
        exact Bool.eq_false_iff.mpr this
      rw [List.foldl_cons, step_one_eq_of_not_hit p x hnot]
    · have hstep : finalize_step userId bp ⟨ps, rs⟩ x
          = ⟨ps.map (fun p => step_one p x), rs ++ [mk_purchase_row userId bp x]⟩ := by
        simp [finalize_step, hc]
      rw [hstep, ih, List.map_map]
      apply List.map_congr_left
      intro p _
      simp [Function.comp, List.foldl_cons]

lemma finalize_rows_spec (userId : Nat) (bp : String → Nat) (Q : PurchaseRow → Prop) :
    ∀ (l : List SnapItem) (acc : TxAcc),
      (∀ r ∈ acc.rows, Q r) → (∀ item ∈ l, Q (mk_purchase_row userId bp item)) →
      ∀ r ∈ (l.foldl (finalize_step userId bp) acc).rows, Q r := by
  intro l
  induction l with
  | nil => intro acc hacc _ r hr; exact hacc r hr
  | cons x xs ih =>
    intro acc hacc hitems
    rw [List.foldl_cons]
    apply ih
    · intro r hr
      by_cases hc : acc.products.countP (hitBy x.productId) = 0
      · rw [show finalize_step userId bp acc x = acc from by simp [finalize_step, hc]] at hr
        exact hacc r hr
      · rw [show finalize_step userId bp acc x
            = ⟨acc.products.map (fun p => step_one p x),
               acc.rows ++ [mk_purchase_row userId bp x]⟩
            from by simp [finalize_step, hc]] at hr
        have hr' : r ∈ acc.rows ++ [mk_purchase_row userId bp x] := hr
        rcases List.mem_append.mp hr' with hr1 | hr2
        · exact hacc r hr1
        · rw [List.mem_singleton] at hr2
          subst hr2
          exact hitems x (List.mem_cons_self x xs)
    · intro item hitem
      exact hitems item (List.mem_cons_of_mem x hitem)

lemma finalize_transaction_elim (userId : Nat) (snapshot : List SnapItem)
    (discountCode : Option String) (bp : String → Nat) (db db1 : DB)
    (rows : List PurchaseRow)
    (h : finalize_transaction userId snapshot discountCode bp db = some (db1, rows)) :
    (snapshot.foldl (finalize_step userId bp) ⟨db.products, []⟩).rows = rows ∧
    rows ≠ [] ∧
    db1.products = (snapshot.foldl (finalize_step userId bp) ⟨db.products, []⟩).products ∧
    db1.purchases = db.purchases ++ rows ∧
    db1.users = db.users.map (fun u => if u.userId == userId then
      { u with totalPurchases := u.totalPurchases + rows.length, basket := "" } else u) ∧
    db1.discountCodes = (match discountCode with
      | some code => db.discountCodes.map (fun dc => if dc.1 == code then (dc.1, dc.2 + 1) else dc)
      | none => db.discountCodes) := by
  simp only [finalize_transaction] at h
  split at h
  · exact absurd h (by simp)
  · rename_i hne
    injection h with h2
    rw [Prod.mk.injEq] at h2
    obtain ⟨h3, h4⟩ := h2
    subst h3
    subst h4
    refine ⟨rfl, ?_, rfl, rfl, rfl, ?_⟩
    · intro hnil
      rw [hnil] at hne
      exact hne rfl
    · cases discountCode <;> rfl

/-! ## Claim theorems -/

/-- Claim C5: if no snapshot item survives stock re-verification (every
product with a snapshot item's id has no available stock), the whole
finalization transaction rolls back — the database is returned exactly
as it was, with no purchase rows, stock decrements, discount-counter or
basket changes — and `_finalize_purchase` reports failure to its
caller. -/
theorem c5_zero_survivors_rolls_back (userId : Nat) (snapshot : List SnapItem)
    (discountCode : Option String) (bp : String → Nat) (post : PostOutcome) (db : DB)
    (h : ∀ item ∈ snapshot, ∀ p ∈ db.products, p.id = item.productId → p.available ≤ 0) :
    finalize_transaction userId snapshot discountCode bp db = none ∧
    finalize_purchase userId snapshot discountCode bp post db = (db, false) := by
  have hfix : snapshot.foldl (finalize_step userId bp) ⟨db.products, []⟩
      = ⟨db.products, []⟩ := by
    apply foldl_fixed
    intro item hitem
    have hz : db.products.countP (hitBy item.productId) = 0 := by
      rw [List.countP_eq_zero]
      intro p hp hcontr
      simp only [hitBy, Bool.and_eq_true, beq_iff_eq, decide_eq_true_eq] at hcontr
      have hle := h item hitem p hp hcontr.1
      omega
    simp [finalize_step, hz]
  have ht : finalize_transaction userId snapshot discountCode bp db = none := by
    simp [finalize_transaction, hfix]
  refine ⟨ht, ?_⟩
  unfold finalize_purchase
  by_cases hs : snapshot.isEmpty
  · simp [hs]
  · simp [hs, ht]

/-- Witness for C5: with product 1 reserved but out of available stock,
finalizing a one-item basket fails and leaves the database untouched. -/
theorem c5_witness :
    finalize_purchase 7 [sampleItem] none sampleBp samplePostOk sampleDbNoStock
      = (sampleDbNoStock, false) :=
  (c5_zero_survivors_rolls_back 7 [sampleItem] none sampleBp samplePostOk sampleDbNoStock
    (by decide)).2

/-- Claim C6: every purchase row committed by the finalization
transaction records `price_paid` equal to the snapshot item's original
price minus the externally resolved reseller discount percentage of it,
with the discount amount rounded down to the cent (prices in cents,
percentages in basis points, `Int` division truncating). -/
theorem c6_price_paid_rounds_down (userId : Nat) (snapshot : List SnapItem)
    (discountCode : Option String) (bp : String → Nat) (db db1 : DB)
    (rows : List PurchaseRow)
    (h : finalize_transaction userId snapshot discountCode bp db = some (db1, rows)) :
    ∀ r ∈ rows, ∃ item ∈ snapshot, r.productId = item.productId ∧
      r.pricePaid = item.price - item.price * (bp item.productType : Int) / 10000 := by
  obtain ⟨hrows, -, -, -, -, -⟩ :=
    finalize_transaction_elim userId snapshot discountCode bp db db1 rows h
  intro r hr
  rw [← hrows] at hr
  refine finalize_rows_spec userId bp
    (fun r => ∃ item ∈ snapshot, r.productId = item.productId ∧
      r.pricePaid = item.price - item.price * (bp item.productType : Int) / 10000)
    snapshot ⟨db.products, []⟩ ?_ ?_ r hr
  · intro r0 hr0
    simp at hr0
  · intro item hitem
    exact ⟨item, hitem, rfl, rfl⟩

/-- Witness for C6: a 10% reseller discount on a 10.00 EUR item records
`price_paid` = 9.00 EUR (900 cents) in the committed purchase row. -/
theorem c6_witness :
    ∃ item ∈ [sampleItem], sampleRow.productId = item.productId ∧
      sampleRow.pricePaid
        = item.price - item.price * (sampleBp item.productType : Int) / 10000 :=
  c6_price_paid_rounds_down 7 [sampleItem] (some "SAVE10") sampleBp sampleDb
    sampleDbCommitted [sampleRow] (by decide) sampleRow (by decide)

/-- Claim C7: no step of the finalization transaction ever takes any
product's available count below zero (every prefix of the snapshot loop
keeps all counts non-negative), and every product in the snapshot whose
available count is 1 at finalization time ends a successful
finalization transaction with available count exactly 0. -/
theorem c7_single_unit_decrements_to_zero (userId : Nat) (snapshot : List SnapItem)
    (discountCode : Option String) (bp : String → Nat) (db db1 : DB)
    (rows : List PurchaseRow)
    (h : finalize_transaction userId snapshot discountCode bp db = some (db1, rows))
    (hpos : ∀ p ∈ db.products, 0 ≤ p.available) :
    (∀ k : Nat, ∀ q ∈ ((snapshot.take k).foldl (finalize_step userId bp)
        (⟨db.products, []⟩ : TxAcc)).products, 0 ≤ q.available) ∧
    (∀ p ∈ db.products, p.available = 1 → (∃ item ∈ snapshot, item.productId = p.id) →
      ∃ q ∈ db1.products, q.id = p.id ∧ q.available = 0) := by
  obtain ⟨-, -, hprod, -, -, -⟩ :=
    finalize_transaction_elim userId snapshot discountCode bp db db1 rows h
  constructor
  · intro k q hq
    rw [products_foldl_map] at hq
    obtain ⟨p, hp, rfl⟩ := List.mem_map.mp hq
    exact foldl_step_one_nonneg _ _ (hpos p hp)
  · intro p hp h1 hex
    refine ⟨snapshot.foldl step_one p, ?_, ?_, ?_⟩
    · rw [hprod, products_foldl_map]
      exact List.mem_map.mpr ⟨p, hp, rfl⟩
    · exact foldl_step_one_id snapshot p
    · exact foldl_step_one_single snapshot p h1 hex

/-- Witness for C7: product 1 starts with available = 1, and the
successful finalization of a one-item basket leaves its row with
available = 0. -/
theorem c7_witness :
    ∃ q ∈ sampleDbCommitted.products, q.id = 1 ∧ q.available = 0 :=
  (c7_single_unit_decrements_to_zero 7 [sampleItem] (some "SAVE10") sampleBp sampleDb
    sampleDbCommitted [sampleRow] (by decide) (by decide)).2
    { id := 1, available := 1, reserved := 0 } (by decide) (by decide) (by decide)

/-- Claim C8: once the finalization transaction has committed, the
outcome of the best-effort post-commit phase (media fetch, delivery,
product-row deletion) cannot undo it: for every post-commit outcome the
committed purchase rows, user updates (basket cleared, counters bumped)
and discount-counter update persist, only already-committed product
rows can disappear (by deletion, never by restoration), and
`_finalize_purchase` still returns success. -/
theorem c8_post_commit_failures_keep_commit (userId : Nat) (snapshot : List SnapItem)
    (discountCode : Option String) (bp : String → Nat) (post : PostOutcome) (db db1 : DB)
    (rows : List PurchaseRow)
    (h : finalize_transaction userId snapshot discountCode bp db = some (db1, rows)) :
    (finalize_purchase userId snapshot discountCode bp post db).2 = true ∧
    (finalize_purchase userId snapshot discountCode bp post db).1.purchases = db1.purchases ∧
    (finalize_purchase userId snapshot discountCode bp post db).1.users = db1.users ∧
    (finalize_purchase userId snapshot discountCode bp post db).1.discountCodes
      = db1.discountCodes ∧
    (∀ p ∈ (finalize_purchase userId snapshot discountCode bp post db).1.products,
      p ∈ db1.products) := by
  have hsnap : snapshot.isEmpty = false := by
    cases hs : snapshot.isEmpty
    · rfl
    · exfalso
      rw [List.isEmpty_iff] at hs
      subst hs
      simp [finalize_transaction] at h
  cases hdel : post.deleteOk
  · have hres : finalize_purchase userId snapshot discountCode bp post db = (db1, true) := by
      simp [finalize_purchase, hsnap, h, hdel]
    rw [hres]
    simp
  · have hres : finalize_purchase userId snapshot discountCode bp post db
        = (delete_products (rows.map (fun r => r.productId)) db1, true) := by
      simp [finalize_purchase, hsnap, h, hdel]
    rw [hres]
    refine ⟨rfl, rfl, rfl, rfl, ?_⟩
    intro p hp
    simp only [delete_products, List.mem_filter] at hp
    exact hp.1

/-- Witness for C8: with every post-commit step failing, finalization of
a one-item basket still reports success. -/
theorem c8_witness :
    (finalize_purchase 7 [sampleItem] (some "SAVE10") sampleBp samplePostFail sampleDb).2
      = true :=
  (c8_post_commit_failures_keep_commit 7 [sampleItem] (some "SAVE10") sampleBp samplePostFail
    sampleDb sampleDbCommitted [sampleRow] (by decide)).1

lemma find?_users_update (userId : Nat) (f : UserRow → UserRow)
    (hf : ∀ u : UserRow, (f u).userId = u.userId) :
    ∀ us : List UserRow,
      (us.map (fun u => if u.userId == userId then f u else u)).find?
          (fun u => u.userId == userId)
        = (us.find? (fun u => u.userId == userId)).map f := by
  intro us
  rw [List.find?_map]
  have hpred : ((fun u : UserRow => u.userId == userId) ∘
      (fun u => if u.userId == userId then f u else u)) = (fun u => u.userId == userId) := by
    funext u
    by_cases hu : (u.userId == userId) = true
    · simp [Function.comp, hu, hf u]
    · rw [Bool.not_eq_true] at hu
      simp [Function.comp, hu]
  rw [hpred]
  cases hfind : us.find? (fun u => u.userId == userId) with
  | none => rfl
  | some u =>
    have hu := List.find?_some hfind
    have hueq : u.userId = userId := by simpa using hu
    simp [hueq]

lemma user_balance_update_balance (userId : Nat) (delta : Int) (db : DB) :
    user_balance userId (update_balance userId delta db)
      = (user_balance userId db).map (fun b => b + delta) := by
  unfold user_balance update_balance
  rw [find?_users_update userId (fun u => { u with balance := u.balance + delta })
    (fun u => rfl)]
  cases db.users.find? (fun u => u.userId == userId) <;> rfl

/-- Claim C2: when the balance was deducted but the subsequent
finalization fails, the deducted amount is refunded to the user's
balance in a separate transaction (restoring the pre-deduction value),
and an operator alert is issued exactly when that refund itself fails
(with the operator channel configured). -/
theorem c2_refund_after_failed_finalization (userId : Nat) (amount : Int)
    (snapshot : List SnapItem) (discountCode : Option String) (bp : String → Nat)
    (post : PostOutcome) (db : DB) (u : UserRow)
    (hne : snapshot.isEmpty = false)
    (hamt : 0 ≤ amount)
    (hfind : db.users.find? (fun v => v.userId == userId) = some u)
    (hbal : amount ≤ u.balance)
    (hfail : finalize_transaction userId snapshot discountCode bp
      (update_balance userId (-amount) db) = none) :
    process_purchase_with_balance userId amount snapshot discountCode bp post true true db
      = (update_balance userId amount (update_balance userId (-amount) db), false, false) ∧
    user_balance userId
      (process_purchase_with_balance userId amount snapshot discountCode bp post
        true true db).1 = some u.balance ∧
    process_purchase_with_balance userId amount snapshot discountCode bp post false true db
      = (update_balance userId (-amount) db, false, true) := by
  have hnlt : ¬ amount < 0 := by omega
  have hnlt2 : ¬ u.balance < amount := by omega
  have hfp : finalize_purchase userId snapshot discountCode bp post
      (update_balance userId (-amount) db)
      = (update_balance userId (-amount) db, false) := by
    simp [finalize_purchase, hne, hfail]
  have h1 : process_purchase_with_balance userId amount snapshot discountCode bp post
      true true db
      = (update_balance userId amount (update_balance userId (-amount) db), false, false) := by
    simp [process_purchase_with_balance, hne, hnlt, hfind, hnlt2, hfp]
  have h3 : process_purchase_with_balance userId amount snapshot discountCode bp post
      false true db
      = (update_balance userId (-amount) db, false, true) := by
    simp [process_purchase_with_balance, hne, hnlt, hfind, hnlt2, hfp]
  refine ⟨h1, ?_, h3⟩
  rw [h1]
  rw [user_balance_update_balance, user_balance_update_balance]
  unfold user_balance
  rw [hfind]
  have harith : u.balance + -amount + amount = u.balance := by omega
  simp [harith]

/-- Witness for C2: user 7 pays 15.00 EUR from a 20.00 EUR balance, the
finalization fails (no available stock), the refund transaction itself
fails, and the operator alert is issued. -/
theorem c2_witness :
    process_purchase_with_balance 7 1500 [sampleItem] none sampleBp samplePostOk
      false true sampleDbNoStock
      = (update_balance 7 (-1500) sampleDbNoStock, false, true) :=
  (c2_refund_after_failed_finalization 7 1500 [sampleItem] none sampleBp samplePostOk
    sampleDbNoStock { userId := 7, balance := 2000, totalPurchases := 0, basket := "1x1" }
    (by decide) (by decide) (by decide) (by decide) (by decide)).2.2

/-- Claim C9: `credit_user_balance` either rejects the credit with the
database untouched, or the amount was positive, the target user row
exists, and the call succeeds.  In particular a non-positive amount is
rejected before any database write, success implies the user row
exists, and a missing row leaves every balance unchanged. -/
theorem c9_credit_balance_guarded (userId : Nat) (amount : Int) (db : DB) :
    credit_user_balance userId amount db = (db, false) ∨
    (0 < amount ∧ db.users.any (fun u => u.userId == userId) = true ∧
      credit_user_balance userId amount db
        = (credit_apply userId amount db, true)) := by
  unfold credit_user_balance
  by_cases hle : amount ≤ 0
  · left
    simp [hle]
  · by_cases hex : db.users.any (fun u => u.userId == userId) = true
    · right
      refine ⟨by omega, hex, ?_⟩
      simp [hle, hex]
    · left
      rw [Bool.not_eq_true] at hex
      simp [hle, hex]

/-- Claim C10: a worker bulk-intake message either leaves the pending
drop list unchanged, or a `(size, price)` pair parsed from the text
with a non-empty size and `0 < price ≤ 10000`, and exactly that drop is
appended; consequently, if every already-stored drop has a price in
`(0, 10000]`, so does every drop stored afterwards. -/
theorem c10_bulk_price_invariant (parse : String → Option (String × ℚ × String))
    (text : String) (drops : List Drop)
    (hinv : ∀ d ∈ drops, 0 < d.price ∧ d.price ≤ 10000) :
    (∀ d ∈ handle_worker_bulk_messages parse text drops, 0 < d.price ∧ d.price ≤ 10000) ∧
    (handle_worker_bulk_messages parse text drops = drops ∨
      ∃ size price description, parse text = some (size, price, description) ∧
        size ≠ "" ∧ 0 < price ∧ price ≤ 10000 ∧
        handle_worker_bulk_messages parse text drops
          = drops ++ [{ size := size, price := price, description := description,
                        originalText := text }]) := by
  cases hp : parse text with
  | none =>
    have hres : handle_worker_bulk_messages parse text drops = drops := by
      simp [handle_worker_bulk_messages, hp]
    rw [hres]
    exact ⟨hinv, Or.inl rfl⟩
  | some v =>
    obtain ⟨size, price, description⟩ := v
    by_cases hsz : size.isEmpty = true
    · have hres : handle_worker_bulk_messages parse text drops = drops := by
        simp [handle_worker_bulk_messages, hp, hsz]
      rw [hres]
      exact ⟨hinv, Or.inl rfl⟩
    · by_cases hpr : price ≤ 0 ∨ 10000 < price
      · have hres : handle_worker_bulk_messages parse text drops = drops := by
          simp only [handle_worker_bulk_messages, hp]
          rw [if_neg hsz, if_pos hpr]
        rw [hres]
        exact ⟨hinv, Or.inl rfl⟩
      · have hres : handle_worker_bulk_messages parse text drops
            = drops ++ [{ size := size, price := price, description := description,
                          originalText := text }] := by
          simp only [handle_worker_bulk_messages, hp]
          rw [if_neg hsz, if_neg hpr]
        push_neg at hpr
        rw [hres]
        constructor
        · intro d hd
          rcases List.mem_append.mp hd with hd1 | hd2
          · exact hinv d hd1
          · rw [List.mem_singleton] at hd2
            subst hd2
            exact ⟨hpr.1, hpr.2⟩
        · right
          refine ⟨size, price, description, rfl, ?_, hpr.1, hpr.2, rfl⟩
          intro hempty
          apply hsz
          rw [hempty]
          rfl

/-- Witness for C10: the drop parsed as ("1g", 25.5) from a message and
appended to an empty pending list has its price inside (0, 10000]. -/
theorem c10_witness : 0 < sampleDrop.price ∧ sampleDrop.price ≤ 10000 :=
  (c10_bulk_price_invariant (fun _ => some ("1g", (51 : ℚ) / 2, "good stuff"))
    "1g - 25.50 good stuff" [] (by simp)).1 sampleDrop
    (by
      simp only [handle_worker_bulk_messages, sampleDrop]
      rw [if_neg (by decide), if_neg (by norm_num)]
      · exact List.mem_singleton.mpr rfl)

/-- Claim C4: every successful invoice creation places on the invoice
the crypto amount `max(estimate, minimum)` — the gateway's conversion
estimate for the target fiat amount, or the gateway's published minimum
payable amount for the chosen currency, whichever is higher. -/
theorem c4_invoice_amount_is_max (apiKeyConfigured : Bool) (estimate : EstimateResult)
    (minAmount : Option ℚ) (isPurchase : Bool) (apiCall : ℚ → ApiCallResult)
    (storeOk : Bool) (amt : ℚ) (resp : InvoiceResp)
    (h : create_nowpayments_payment apiKeyConfigured estimate minAmount isPurchase apiCall
      storeOk = PayResult.ok amt resp) :
    ∃ est minA, estimate = EstimateResult.ok est ∧ minAmount = some minA ∧
      amt = max est minA := by
  cases apiKeyConfigured with
  | false => simp [create_nowpayments_payment] at h
  | true =>
    cases estimate with
    | errCode c =>
      by_cases hc : (c == "estimate_currency_not_found") = true
      · simp [create_nowpayments_payment, hc] at h
      · rw [Bool.not_eq_true] at hc
        simp [create_nowpayments_payment, hc] at h
    | ok est =>
      cases minAmount with
      | none => simp [create_nowpayments_payment] at h
      | some minA =>
        by_cases hpl : (isPurchase && decide (est < minA)) = true
        · simp [create_nowpayments_payment, hpl] at h
        · rw [Bool.not_eq_true] at hpl
          cases hapi : apiCall (max est minA) with
          | errCode c => simp [create_nowpayments_payment, hpl, hapi] at h
          | ok r =>
            by_cases hv : resp_valid r = true
            · cases storeOk with
              | false => simp [create_nowpayments_payment, hpl, hapi, hv] at h
              | true =>
                simp [create_nowpayments_payment, hpl, hapi, hv] at h
                exact ⟨est, minA, rfl, rfl, h.1.symm⟩
            · rw [Bool.not_eq_true] at hv
              simp [create_nowpayments_payment, hpl, hapi, hv] at h

/-- Witness for C4: an estimate of 5 with a published minimum of 3
yields an invoice for `max 5 3 = 5`. -/
theorem c4_witness :
    ∃ est minA, EstimateResult.ok (5 : ℚ) = EstimateResult.ok est ∧
      some (3 : ℚ) = some minA ∧ (5 : ℚ) = max est minA :=
  c4_invoice_amount_is_max true (EstimateResult.ok 5) (some 3) true
    (fun _ => ApiCallResult.ok sampleResp) true 5 sampleResp (by decide)

lemma startsWithList_self_append (n suf : List Char) :
    startsWithList n (n ++ suf) = true := by
  induction n with
  | nil => rfl
  | cons a as ih => simp [startsWithList, ih]

lemma hasSegment_of_startsWith (n hay : List Char) (h : startsWithList n hay = true) :
    hasSegment n hay = true := by
  cases hay with
  | nil => exact h
  | cons b bs => simp [hasSegment, h]

lemma hasSegment_append (pre n suf : List Char) :
    hasSegment n (pre ++ (n ++ suf)) = true := by
  induction pre with
  | nil => exact hasSegment_of_startsWith n (n ++ suf) (startsWithList_self_append n suf)
  | cons b bs ih =>
    have hstep : hasSegment n ((b :: bs) ++ (n ++ suf))
        = (startsWithList n ((b :: bs) ++ (n ++ suf)) || hasSegment n (bs ++ (n ++ suf))) :=
      rfl
    rw [hstep, ih]
    simp

lemma strContains_middle (a b c : String) : strContains (a ++ b ++ c) b = true := by
  unfold strContains
  rw [String.data_append, String.data_append, List.append_assoc]
  exact hasSegment_append a.data b.data c.data

lemma strContains_five (s1 pid s2 us s3 : String) :
    strContains (s1 ++ pid ++ s2 ++ us ++ s3) pid = true ∧
    strContains (s1 ++ pid ++ s2 ++ us ++ s3) us = true := by
  constructor
  · have h : s1 ++ pid ++ s2 ++ us ++ s3 = (s1 ++ pid) ++ (s2 ++ us ++ s3) := by
      simp [String.append_assoc]
    rw [h]
    exact strContains_middle s1 pid (s2 ++ us ++ s3)
  · exact strContains_middle (s1 ++ pid ++ s2) us s3

/-- Claim C3 (amended): for every confirmed crypto payment whose
finalization fails — including a missing/empty basket snapshot — no
refund is attempted (the database, and with it every balance, is left
exactly as it was), failure is reported, and an operator alert is sent
that carries the user id and the payment id (the basket itself is not
part of the alert text). -/
theorem c3_crypto_failure_alert (userId : Nat) (paymentId : String)
    (snapshot : List SnapItem) (discountCode : Option String) (bp : String → Nat)
    (post : PostOutcome) (db : DB)
    (hfail : finalize_transaction userId snapshot discountCode bp db = none) :
    (process_successful_crypto_purchase userId paymentId snapshot discountCode bp post
      true db).1 = db ∧
    (process_successful_crypto_purchase userId paymentId snapshot discountCode bp post
      true db).2.1 = false ∧
    ∃ msg, (process_successful_crypto_purchase userId paymentId snapshot discountCode bp post
        true db).2.2 = some msg ∧
      strContains msg (toString userId) = true ∧ strContains msg paymentId = true := by
  by_cases hs : snapshot.isEmpty = true
  · have hres : process_successful_crypto_purchase userId paymentId snapshot discountCode bp
        post true db = (db, false, some (missing_basket_alert paymentId userId)) := by
      simp [process_successful_crypto_purchase, hs]
    rw [hres]
    refine ⟨rfl, rfl, missing_basket_alert paymentId userId, rfl, ?_, ?_⟩
    · exact (strContains_five _ paymentId _ (toString userId) _).2
    · exact (strContains_five _ paymentId _ (toString userId) _).1
  · rw [Bool.not_eq_true] at hs
    have hfp : finalize_purchase userId snapshot discountCode bp post db = (db, false) := by
      simp [finalize_purchase, hs, hfail]
    have hres : process_successful_crypto_purchase userId paymentId snapshot discountCode bp
        post true db = (db, false, some (finalize_fail_alert paymentId userId)) := by
      simp [process_successful_crypto_purchase, hs, hfp]
    rw [hres]
    refine ⟨rfl, rfl, finalize_fail_alert paymentId userId, rfl, ?_, ?_⟩
    · exact (strContains_five _ paymentId _ (toString userId) _).2
    · exact (strContains_five _ paymentId _ (toString userId) _).1

/-- Witness for C3 (amended): a confirmed crypto payment over a one-item
basket with no available stock fails finalization and reports failure
(with the alert sent, per the theorem). -/
theorem c3_witness :
    (process_successful_crypto_purchase 7 "NP123" [sampleItem] none sampleBp samplePostOk
      true sampleDbNoStock).2.1 = false :=
  (c3_crypto_failure_alert 7 "NP123" [sampleItem] none sampleBp samplePostOk
    sampleDbNoStock (by decide)).2.1

/-- Counterexample for C3 as stated: two different failing baskets
produce the *identical* operator alert, and the alert does not mention
the basket's item ("ItemOne") — so the alert contains the user id and
payment id but not the basket. -/
theorem c3_counterexample :
    (process_successful_crypto_purchase 7 "NP123" [sampleItem] none sampleBp samplePostOk
        true sampleDbNoStock).2.2
      = (process_successful_crypto_purchase 7 "NP123" [sampleItemB] none sampleBp
          samplePostOk true sampleDbNoStock).2.2
    ∧ (process_successful_crypto_purchase 7 "NP123" [sampleItem] none sampleBp samplePostOk
        true sampleDbNoStock).2.2 = some (finalize_fail_alert "NP123" 7)
    ∧ strContains (finalize_fail_alert "NP123" 7) "ItemOne" = false := by
  refine ⟨by decide, by decide, by decide⟩

/-- Claim C1 (amended): after `create_nowpayments_payment` fails with an
error code that is **not** one of `basket_pay_too_low`,
`amount_too_low_api`, `min_amount_fetch_error`, `estimate_failed`,
`estimate_currency_not_found`, `payment_api_misconfigured`, the basket
payment handler does not release the reserved inventory: the database
is left unchanged, even though no pending-deposit record was stored. -/
theorem c1_no_release_for_unlisted_codes (apiKeyConfigured : Bool)
    (estimate : EstimateResult) (minAmount : Option ℚ) (isPurchase : Bool)
    (apiCall : ℚ → ApiCallResult) (storeOk : Bool) (code : String)
    (snapshot : List SnapItem) (db : DB)
    (_hres : create_nowpayments_payment apiKeyConfigured estimate minAmount isPurchase
      apiCall storeOk = PayResult.err code)
    (hnot : basket_unreserve_error_codes.contains code = false) :
    handle_select_basket_crypto_failure snapshot (PayResult.err code) db = db := by
  show (if basket_unreserve_error_codes.contains code = true then
      unreserve_basket_items snapshot db else db) = db
  rw [hnot]
  simp

/-- Witness for C1 (amended): a pending-deposit store failure yields
`pending_db_error`, which is not in the release list, and the reserved
inventory stays untouched. -/
theorem c1_witness :
    handle_select_basket_crypto_failure [sampleItem] (PayResult.err "pending_db_error")
      sampleDbNoStock = sampleDbNoStock :=
  c1_no_release_for_unlisted_codes true (EstimateResult.ok 5) (some 1) true
    (fun _ => ApiCallResult.ok sampleResp) false "pending_db_error" [sampleItem]
    sampleDbNoStock (by decide) (by decide)

/-- Counterexample for C1 as stated: a pending-deposit store failure
(`pending_db_error`) is an invoice-creation failure that occurs before
the pending-deposit record is durably stored, yet the handler leaves
the database — product 1 still reserved with no available stock —
unchanged, although releasing the snapshot would have changed it. -/
theorem c1_counterexample :
    create_nowpayments_payment true (EstimateResult.ok 5) (some 1) true
      (fun _ => ApiCallResult.ok sampleResp) false = PayResult.err "pending_db_error"
    ∧ handle_select_basket_crypto_failure [sampleItem] (PayResult.err "pending_db_error")
        sampleDbNoStock = sampleDbNoStock
    ∧ unreserve_basket_items [sampleItem] sampleDbNoStock ≠ sampleDbNoStock := by
  refine ⟨by decide, by decide, by decide⟩

end GoblinShop
